import Mathlib

/-!
# NorrisBot — shallow embedding of `lib/norrisbot.js`

The bot listens to Slack real-time events and replies with a joke drawn
from a SQLite database.  We embed the data the bot manipulates (the
`jokes` and `info` tables, the roster of members and channels, an inbound
real-time event) and each prototype method that the specification's
claims are about.  JavaScript values that may be `undefined` are embedded
as `Option`; a method that would dereference `undefined` (throwing a
`TypeError` at run time) is embedded as an `Option`-returning function,
`none` standing for the thrown exception.
-/

namespace NorrisBot

/-- A workspace member as delivered in `this.users` by the slackbots
transport: we keep the two fields the bot reads, `id` and `name`. -/
structure Member where
  id : String
  name : String
  deriving DecidableEq

/-- A channel as delivered in `this.channels`: the bot reads `id` and
`name`. -/
structure Channel where
  id : String
  name : String
  deriving DecidableEq

/-- A row of the `jokes` table (columns `id`, `joke`, `used`). -/
structure Joke where
  id : Int
  joke : String
  used : Nat
  deriving DecidableEq

/-- A row of the `info` key-value table (columns `name`, `val`). -/
structure InfoRow where
  name : String
  val : String
  deriving DecidableEq

/-- An inbound real-time event (`message` parameter of `_onMessage`).
Each field the bot reads may be absent (`undefined` in JavaScript);
a `channel` value that is not a string is embedded as `none` as well,
since the only read of `channel` is guarded by `typeof message.channel
=== 'string'`. -/
structure InboundEvent where
  type : Option String
  text : Option String
  channel : Option String
  user : Option String
  deriving DecidableEq

/-- JavaScript `s.indexOf(sub) > -1`: `sub` occurs as a contiguous
substring of `s`. -/
def strContains (s sub : String) : Bool :=
  decide (sub.data <:+: s.data)

/-- JavaScript `s.toLowerCase()`: lowercase the string character by
character (the texts involved are ASCII, where `Char.toLower` and
JavaScript's `toLowerCase` agree). -/
def toLowerCase (s : String) : String :=
  ⟨s.data.map Char.toLower⟩

/-- `_isChatMessage`: `message.type === 'message' && Boolean(message.text)`.
`Boolean` of an absent or empty string is `false`. -/
def isChatMessage (m : InboundEvent) : Bool :=
  m.type == some "message" &&
    (match m.text with
     | some t => !(t == "")
     | none => false)

/-- `_isChannelConversation`: `typeof message.channel === 'string' &&
message.channel[0] === 'C'`.  An absent (or non-string) channel fails the
`typeof` guard; an empty string has no character `[0]`. -/
def isChannelConversation (m : InboundEvent) : Bool :=
  match m.channel with
  | some c =>
    match c.data with
    | [] => false
    | ch :: _ => ch == 'C'
  | none => false

/-- `_isFromNorrisBot`: `message.user === this.user.id`.  `this.user` is
the `Option Member` stored by `_loadBotUser`; when it is `none` the read
`this.user.id` throws, hence the `Option Bool` result. -/
def isFromNorrisBot (user : Option Member) (m : InboundEvent) : Option Bool :=
  user.map (fun u => m.user == some u.id)

/-- `_isMentioningChuckNorris`:
`message.text.toLowerCase().indexOf('chuck norris') > -1 ||
 message.text.toLowerCase().indexOf(this.name) > -1`.
The text is lowercased; the configured name is searched for verbatim.
An absent `text` would make `toLowerCase()` throw, hence `Option Bool`. -/
def isMentioningChuckNorris (name : String) (m : InboundEvent) : Option Bool :=
  m.text.map (fun t =>
    strContains (toLowerCase t) "chuck norris" || strContains (toLowerCase t) name)

/-- `_onMessage`'s guard
`this._isChatMessage(message) && this._isChannelConversation(message) &&
 !this._isFromNorrisBot(message) && this._isMentioningChuckNorris(message)`,
with JavaScript's left-to-right short-circuit evaluation: the two
fallible predicates are only reached when the earlier conjuncts hold.
`some true` means `_replyWithRandomJoke` is invoked; `some false` means
the event is dropped; `none` means a `TypeError` is thrown. -/
def onMessageReplies (user : Option Member) (name : String) (m : InboundEvent) :
    Option Bool :=
  if isChatMessage m then
    if isChannelConversation m then
      match isFromNorrisBot user m with
      | none => none
      | some fromBot =>
        if fromBot then some false
        else isMentioningChuckNorris name m
    else some false
  else some false

/-- `_loadBotUser`: `this.users.filter(u => u.name === self.name)[0]`.
Index `[0]` of an empty filter result is `undefined`, embedded as
`none`; no error is raised either way. -/
def loadBotUser (users : List Member) (name : String) : Option Member :=
  (users.filter (fun user => user.name == name)).head?

/-- `_getChannelById`: `this.channels.filter(item => item.id ===
channelId)[0]`; `undefined` (here `none`) when no channel matches. -/
def getChannelById (channels : List Channel) (channelId : String) : Option Channel :=
  (channels.filter (fun item => item.id == channelId)).head?

/-- Ordering of the rows of `SELECT id, joke FROM jokes ORDER BY used
ASC, RANDOM() LIMIT 1`: each row is paired with the value `RANDOM()`
produced for it, and rows are compared by `used` first, random value
second. -/
def rowLE (a b : Joke × Nat) : Bool :=
  decide (a.1.used < b.1.used ∨ (a.1.used = b.1.used ∧ a.2 ≤ b.2))

/-- The single row (if any) produced by
`SELECT id, joke FROM jokes ORDER BY used ASC, RANDOM() LIMIT 1`:
row `i` of the table draws the random value `rnd i`, the rows are sorted
by `(used, random)` and the first row is taken.  An empty table yields no
row (`record` is `undefined` in the callback). -/
def pickLeastUsedJoke (jokes : List Joke) (rnd : Nat → Nat) : Option Joke :=
  ((((jokes.enum.map (fun p => (p.2, rnd p.1)))).mergeSort rowLE).head?).map (·.1)

/-- `UPDATE jokes SET used = used + 1 WHERE id = ?`. -/
def markServed (jokes : List Joke) (jokeId : Int) : List Joke :=
  jokes.map (fun j => if j.id == jokeId then { j with used := j.used + 1 } else j)

/-- Outcome of `_replyWithRandomJoke`'s callback (the `if (err)` branch,
an engine-level failure of the SELECT itself, is outside this
table-state model). -/
inductive ReplyOutcome where
  /-- `postMessageToChannel(channel.name, record.joke, {as_user: true})`
  followed by the `UPDATE`. -/
  | posted (channelName : String) (jokeText : String) (servedId : Int)
  /-- `channel` is `undefined`: evaluating the argument `channel.name`
  throws a `TypeError`; nothing is posted, logged or updated. -/
  | crashNoChannel
  /-- `record` is `undefined` (empty `jokes` table): evaluating the
  argument `record.joke` throws a `TypeError`; nothing is posted, logged
  or updated. -/
  | crashNoRecord
  deriving DecidableEq

/-- `_replyWithRandomJoke`: pick a row, resolve the channel of the
original message, post, then run the `UPDATE`.  The call
`postMessageToChannel(channel.name, record.joke, ...)` evaluates
`channel.name` before `record.joke`, so an unresolved channel throws
first; either throw aborts the callback before the `UPDATE` runs.
Returns the outcome and the resulting `jokes` table. -/
def replyWithRandomJoke (jokes : List Joke) (rnd : Nat → Nat)
    (channels : List Channel) (messageChannel : String) :
    ReplyOutcome × List Joke :=
  match getChannelById channels messageChannel, pickLeastUsedJoke jokes rnd with
  | none, _ => (ReplyOutcome.crashNoChannel, jokes)
  | some _, none => (ReplyOutcome.crashNoRecord, jokes)
  | some c, some record =>
    (ReplyOutcome.posted c.name record.joke record.id, markServed jokes record.id)

/-- `SELECT val FROM info WHERE name = "lastrun" LIMIT 1`. -/
def selectLastrun (info : List InfoRow) : Option String :=
  ((info.filter (fun r => r.name == "lastrun")).head?).map (·.val)

/-- `UPDATE info SET val = ? WHERE name = "lastrun"`. -/
def updateLastrun (info : List InfoRow) (now : String) : List InfoRow :=
  info.map (fun r => if r.name == "lastrun" then { r with val := now } else r)

/-- A write issued against the `info` table by `_firstRunCheck`. -/
inductive DbWrite where
  | insert (name : String) (val : String)
  | update (name : String) (val : String)
  deriving DecidableEq

/-- Observable result of `_firstRunCheck`'s callback: the channel names
posted to (by `_welcomeMessage`), the writes issued against `info`, and
the resulting `info` table. -/
structure FirstRunResult where
  posts : List String
  writes : List DbWrite
  info : List InfoRow
  deriving DecidableEq

/-- `_firstRunCheck` (its callback, on a successful SELECT): if no
`lastrun` row exists, `_welcomeMessage()` posts once to
`this.channels[0].name` (throwing when the channel list is empty, hence
`none`) and one INSERT appends the row `("lastrun", now)`; otherwise no
message is posted and one UPDATE overwrites the `lastrun` value. -/
def firstRunCheck (info : List InfoRow) (channels : List Channel) (now : String) :
    Option FirstRunResult :=
  match selectLastrun info with
  | none =>
    match channels.head? with
    | none => none
    | some c =>
      some ⟨[c.name], [DbWrite.insert "lastrun" now], info ++ [⟨"lastrun", now⟩]⟩
  | some _ =>
    some ⟨[], [DbWrite.update "lastrun" now], updateLastrun info now⟩

/-- The specification's reading of `mentionsTrigger`, for comparison
with `isMentioningChuckNorris`: the text contains "chuck norris" in any
letter case, or contains the configured display name in any letter
case. -/
def mentionsTriggerSpec (name t : String) : Bool :=
  strContains (toLowerCase t) "chuck norris" ||
    strContains (toLowerCase t) (toLowerCase name)

/-! ## Helper lemmas -/

theorem text_of_isChatMessage {m : InboundEvent} (h : isChatMessage m = true) :
    ∃ t, m.text = some t ∧ t ≠ "" := by
  unfold isChatMessage at h
  rw [Bool.and_eq_true] at h
  rcases h with ⟨-, h2⟩
  cases ht : m.text with
  | none => rw [ht] at h2; simp at h2
  | some t =>
    refine ⟨t, rfl, ?_⟩
    rw [ht] at h2
    simpa using h2

/-! ## Claims -/

/-- C1: the guard of `_onMessage` invokes `_replyWithRandomJoke` exactly
when all four predicates hold (so falsifying any single predicate makes
the filter reject the event), and on the claim's concrete event — kind
"message", text "Tell me about Chuck Norris", channel "C123", sender
"U999", with self id "U000" and display name "norrisbot" — the filter
returns true. -/
theorem onMessage_iff_all_four :
    (∀ (u : Member) (name : String) (m : InboundEvent),
      onMessageReplies (some u) name m = some true ↔
        isChatMessage m = true ∧ isChannelConversation m = true ∧
          isFromNorrisBot (some u) m = some false ∧
          isMentioningChuckNorris name m = some true) ∧
    onMessageReplies (some ⟨"U000", "norrisbot"⟩) "norrisbot"
      ⟨some "message", some "Tell me about Chuck Norris", some "C123", some "U999"⟩ =
      some true := by
  constructor
  · intro u name m
    cases hcm : isChatMessage m with
    | false => simp [onMessageReplies, hcm]
    | true =>
      cases hcc : isChannelConversation m with
      | false => simp [onMessageReplies, hcm, hcc]
      | true =>
        cases hfb : m.user == some u.id with
        | false => simp [onMessageReplies, isFromNorrisBot, hcm, hcc, hfb]
        | true => simp [onMessageReplies, isFromNorrisBot, hcm, hcc, hfb]
  · decide

/-- C6: an event whose sender is the bot's own member id is never replied
to — the filter returns false regardless of the event's text — because
`!this._isFromNorrisBot(message)` fails. -/
theorem self_message_never_replied (u : Member) (name : String) (m : InboundEvent)
    (h : m.user = some u.id) :
    onMessageReplies (some u) name m = some false := by
  simp [onMessageReplies, isFromNorrisBot, h]

/-- C6 witness: a self-authored message mentioning the trigger is still
dropped. -/
theorem self_message_never_replied_witness :
    onMessageReplies (some ⟨"U000", "norrisbot"⟩) "norrisbot"
      ⟨some "message", some "chuck norris is here", some "C123", some "U000"⟩ =
      some false :=
  self_message_never_replied ⟨"U000", "norrisbot"⟩ "norrisbot"
    ⟨some "message", some "chuck norris is here", some "C123", some "U000"⟩ rfl

/-- C10: with the bot's identity resolved, the filter is total: it
evaluates to `some` boolean on every event shape, and an event with an
absent (or empty) text, or with an absent or non-string channel, is
rejected with `some false` — `_isChatMessage` rejects before
`_isMentioningChuckNorris` reads `text`, and `_isChannelConversation`
checks `typeof message.channel === 'string'` before indexing. -/
theorem filter_total_on_every_event (u : Member) (name : String) (m : InboundEvent) :
    (onMessageReplies (some u) name m).isSome = true ∧
    (m.text = none ∨ m.text = some "" → onMessageReplies (some u) name m = some false) ∧
    (m.channel = none → onMessageReplies (some u) name m = some false) := by
  refine ⟨?_, ?_, ?_⟩
  · cases hcm : isChatMessage m with
    | false => simp [onMessageReplies, hcm]
    | true =>
      cases hcc : isChannelConversation m with
      | false => simp [onMessageReplies, hcm, hcc]
      | true =>
        obtain ⟨t, ht, -⟩ := text_of_isChatMessage hcm
        cases hfb : m.user == some u.id with
        | false => simp [onMessageReplies, isFromNorrisBot, isMentioningChuckNorris, hcm, hcc, hfb, ht]
        | true => simp [onMessageReplies, isFromNorrisBot, hcm, hcc, hfb]
  · intro h
    have hcm : isChatMessage m = false := by
      rcases h with h | h <;> simp [isChatMessage, h]
    simp [onMessageReplies, hcm]
  · intro h
    have hcc : isChannelConversation m = false := by
      simp [isChannelConversation, h]
    simp [onMessageReplies, hcc]

/-- C7 counterexample: with configured display name "Norris", the text
"call Norris now" contains the display name (even in the original
letter case), so the claimed case-insensitive predicate holds, yet
`_isMentioningChuckNorris` returns false: the code lowercases the text
but searches for the name verbatim, and "Norris" does not occur in
"call norris now". -/
theorem mentionsTrigger_case_cex :
    mentionsTriggerSpec "Norris" "call Norris now" = true ∧
    isMentioningChuckNorris "Norris"
      ⟨some "message", some "call Norris now", some "C123", some "U999"⟩ =
      some false := by
  decide

/-- C7 (amended): `_isMentioningChuckNorris` is case-insensitive in the
text only — it lowercases the text and searches it for the fixed phrase
"chuck norris" and for the configured display name written verbatim.
It therefore coincides with the fully case-insensitive predicate of the
claim exactly when the configured name is already all-lowercase (as the
default "norrisbot" is). -/
theorem mentionsTrigger_lowercases_text_only (name t : String) (m : InboundEvent)
    (h : m.text = some t) :
    isMentioningChuckNorris name m =
      some (strContains (toLowerCase t) "chuck norris" ||
        strContains (toLowerCase t) name) ∧
    (toLowerCase name = name →
      isMentioningChuckNorris name m = some (mentionsTriggerSpec name t)) := by
  constructor
  · simp [isMentioningChuckNorris, h]
  · intro hn
    simp [isMentioningChuckNorris, mentionsTriggerSpec, h, hn]

/-- C7 witness: with the all-lowercase default name "norrisbot", the
predicate agrees with the claim's case-insensitive reading on the text
"Hey NorrisBot". -/
theorem mentionsTrigger_lowercases_text_only_witness :
    isMentioningChuckNorris "norrisbot"
      ⟨some "message", some "Hey NorrisBot", some "C123", some "U999"⟩ =
      some (mentionsTriggerSpec "norrisbot" "Hey NorrisBot") :=
  (mentionsTrigger_lowercases_text_only "norrisbot" "Hey NorrisBot"
    ⟨some "message", some "Hey NorrisBot", some "C123", some "U999"⟩ rfl).2 rfl

/-- C8 counterexample: with a roster holding no member named
"norrisbot", `_loadBotUser` does not fail — it stores the absent value
(`undefined`) as `this.user` and startup proceeds; the unresolved
identity only surfaces later, when `_isFromNorrisBot` dereferences
`this.user.id` while filtering a qualifying chat message (a thrown
`TypeError`, embedded as `none`). -/
theorem loadBotUser_no_failure_cex :
    loadBotUser [⟨"U1", "alice"⟩] "norrisbot" = none ∧
    onMessageReplies (loadBotUser [⟨"U1", "alice"⟩] "norrisbot") "norrisbot"
      ⟨some "message", some "chuck norris rocks", some "C123", some "U999"⟩ =
      none := by
  decide

/-- C8 (amended): `_loadBotUser` scans the roster for an exact
case-sensitive name match and takes the first match; when zero matches
occur it does not fail with `IdentityNotFound` — it proceeds with an
unresolved identity, and message handling later throws when
`_isFromNorrisBot` reads `this.user.id` on a qualifying chat message. -/
theorem loadBotUser_first_match_or_unresolved (users : List Member) (name : String) :
    (∀ u, loadBotUser users name = some u → u.name = name ∧ u ∈ users) ∧
    ((∀ u ∈ users, u.name ≠ name) →
      loadBotUser users name = none ∧
      ∀ m : InboundEvent, isChatMessage m = true → isChannelConversation m = true →
        onMessageReplies (loadBotUser users name) name m = none) := by
  constructor
  · intro u hu
    cases hf : users.filter (fun user => user.name == name) with
    | nil => rw [loadBotUser, hf] at hu; exact absurd hu (by simp)
    | cons a l =>
      rw [loadBotUser, hf] at hu
      simp only [List.head?_cons, Option.some.injEq] at hu
      have hmem : a ∈ users.filter (fun user => user.name == name) := by
        rw [hf]; exact List.mem_cons_self _ _
      have h2 := List.mem_filter.mp hmem
      rw [← hu]
      exact ⟨by simpa using h2.2, h2.1⟩
  · intro hno
    have hf : users.filter (fun user => user.name == name) = [] := by
      apply List.filter_eq_nil_iff.mpr
      intro u hu
      simpa using hno u hu
    have hnone : loadBotUser users name = none := by
      rw [loadBotUser, hf]; rfl
    refine ⟨hnone, ?_⟩
    intro m hcm hcc
    rw [hnone]
    simp [onMessageReplies, isFromNorrisBot, hcm, hcc]

theorem rowLE_trans (a b c : Joke × Nat) (h1 : rowLE a b) (h2 : rowLE b c) :
    rowLE a c := by
  simp only [rowLE, decide_eq_true_eq] at h1 h2 ⊢
  omega

theorem rowLE_total (a b : Joke × Nat) : rowLE a b || rowLE b a := by
  simp only [rowLE, Bool.or_eq_true, decide_eq_true_eq]
  omega

/-- The first row of the `ORDER BY used ASC, RANDOM()` result is a row of
the table with minimal `used`. -/
theorem mergeSort_head_min (rows : List (Joke × Nat)) (h0 : Joke × Nat)
    (t : List (Joke × Nat)) (hs : rows.mergeSort rowLE = h0 :: t) :
    h0 ∈ rows ∧ ∀ r ∈ rows, h0.1.used ≤ r.1.used := by
  have hperm : List.Perm (rows.mergeSort rowLE) rows := List.mergeSort_perm rows rowLE
  constructor
  · exact hperm.mem_iff.mp (by rw [hs]; exact List.mem_cons_self _ _)
  · intro r hr
    have hrs : r ∈ rows.mergeSort rowLE := hperm.mem_iff.mpr hr
    rw [hs] at hrs
    rcases List.mem_cons.mp hrs with h | h
    · rw [h]
    · have hpw := List.sorted_mergeSort rowLE_trans rowLE_total rows
      rw [hs] at hpw
      have hle := (List.pairwise_cons.mp hpw).1 r h
      simp only [rowLE, decide_eq_true_eq] at hle
      omega

/-- C2: on a non-empty jokes table,
`SELECT id, joke FROM jokes ORDER BY used ASC, RANDOM() LIMIT 1` returns
a row of the table whose `used` count is minimal over the whole table —
one of the rows tied for the minimum, never a row with a higher count —
for every assignment of per-row random tie-break values. -/
theorem pickLeastUsedJoke_min (jokes : List Joke) (rnd : Nat → Nat)
    (hne : jokes ≠ []) :
    ∃ j, pickLeastUsedJoke jokes rnd = some j ∧ j ∈ jokes ∧
      ∀ j2 ∈ jokes, j.used ≤ j2.used := by
  have hfst : (jokes.enum.map (fun p => (p.2, rnd p.1))).map Prod.fst = jokes := by
    rw [List.map_map]
    exact List.enum_map_snd jokes
  have hrowsne : jokes.enum.map (fun p => (p.2, rnd p.1)) ≠ [] := by
    intro h
    exact hne (by rw [← hfst, h]; rfl)
  have hmsne : (jokes.enum.map (fun p => (p.2, rnd p.1))).mergeSort rowLE ≠ [] := by
    intro h
    have hperm := List.mergeSort_perm (jokes.enum.map (fun p => (p.2, rnd p.1))) rowLE
    rw [h] at hperm
    exact hrowsne (hperm.symm.eq_nil)
  obtain ⟨h0, t, hs⟩ := List.exists_cons_of_ne_nil hmsne
  obtain ⟨hmem, hmin⟩ := mergeSort_head_min _ h0 t hs
  refine ⟨h0.1, ?_, ?_, ?_⟩
  · rw [pickLeastUsedJoke, hs]
    rfl
  · rw [← hfst]
    exact List.mem_map_of_mem Prod.fst hmem
  · intro j2 hj2
    rw [← hfst] at hj2
    obtain ⟨r, hr, hrj⟩ := List.mem_map.mp hj2
    have := hmin r hr
    rw [hrj] at this
    exact this

/-- C2 witness: on the table `[{id 1, used 0}, {id 2, used 5}]` with a
constant random source, the selected joke has the minimal `used`. -/
theorem pickLeastUsedJoke_min_witness :
    ∃ j, pickLeastUsedJoke [⟨1, "J1", 0⟩, ⟨2, "J2", 5⟩] (fun _ => 0) = some j ∧
      j ∈ [(⟨1, "J1", 0⟩ : Joke), ⟨2, "J2", 5⟩] ∧
      ∀ j2 ∈ [(⟨1, "J1", 0⟩ : Joke), ⟨2, "J2", 5⟩], j.used ≤ j2.used :=
  pickLeastUsedJoke_min [⟨1, "J1", 0⟩, ⟨2, "J2", 5⟩] (fun _ => 0) (by decide)

/-- C3 counterexample: on an empty jokes table (with the originating
channel present), `_replyWithRandomJoke`'s callback receives no row and
throws a `TypeError` evaluating `record.joke` — there is no
`NoJokesAvailable` error in the code, nothing is logged, and no reply is
posted. -/
theorem emptyJokes_cex :
    replyWithRandomJoke [] (fun _ => 0) [⟨"C1", "general"⟩] "C1" =
      (ReplyOutcome.crashNoRecord, []) := by
  simp [replyWithRandomJoke, getChannelById, pickLeastUsedJoke]

/-- C3 (amended): when the jokes table is empty, the SELECT succeeds
with no row (`record` is `undefined`), and for any resolvable
originating channel the callback crashes dereferencing `record.joke`:
no reply is posted, nothing is logged, and the table is unchanged — a
thrown `TypeError`, not the claimed logged `NoJokesAvailable`
degradation. -/
theorem emptyJokes_crashes (rnd : Nat → Nat) (channels : List Channel)
    (cid : String) (c : Channel) (hc : getChannelById channels cid = some c) :
    replyWithRandomJoke [] rnd channels cid = (ReplyOutcome.crashNoRecord, []) := by
  have hp : pickLeastUsedJoke [] rnd = none := by
    simp [pickLeastUsedJoke]
  unfold replyWithRandomJoke
  rw [hc, hp]

/-- C3 witness: the crash on an empty table with channel "C1"
resolvable. -/
theorem emptyJokes_crashes_witness :
    replyWithRandomJoke [] (fun _ => 1) [⟨"C1", "general"⟩] "C1" =
      (ReplyOutcome.crashNoRecord, []) :=
  emptyJokes_crashes (fun _ => 1) [⟨"C1", "general"⟩] "C1" ⟨"C1", "general"⟩ (by decide)

/-- C4: `UPDATE jokes SET used = used + 1 WHERE id = ?` keeps the length
of the table, and at every position keeps the row's `id`, `joke` and
`used` except that the row whose id matches has `used` incremented by
exactly 1 (all other rows, and all other fields, are unchanged). -/
theorem markServed_frame (jokes : List Joke) (jid : Int) (i : Nat) (j : Joke)
    (h : jokes[i]? = some j) :
    (markServed jokes jid).length = jokes.length ∧
    (markServed jokes jid)[i]? =
      some { j with used := j.used + (if j.id = jid then 1 else 0) } := by
  constructor
  · simp [markServed]
  · rw [markServed, List.getElem?_map, h]
    by_cases hid : j.id = jid
    · simp [hid]
    · simp [hid]

/-- C4 witness: serving joke id 1 in `[{1, "J1", 0}, {2, "J2", 5}]`
bumps its count to 1 and keeps its other fields. -/
theorem markServed_frame_witness :
    (markServed [⟨1, "J1", 0⟩, ⟨2, "J2", 5⟩] 1).length = 2 ∧
    (markServed [⟨1, "J1", 0⟩, ⟨2, "J2", 5⟩] 1)[0]? = some ⟨1, "J1", 1⟩ := by
  have h := markServed_frame [⟨1, "J1", 0⟩, ⟨2, "J2", 5⟩] 1 0 ⟨1, "J1", 0⟩ rfl
  simpa using h

theorem selectLastrun_updateLastrun (info : List InfoRow) (now : String) :
    selectLastrun (updateLastrun info now) =
      (selectLastrun info).map (fun _ => now) := by
  induction info with
  | nil => rfl
  | cons r rest ih =>
    by_cases h : r.name = "lastrun"
    · simp [selectLastrun, updateLastrun, List.filter_cons, h]
    · simp only [selectLastrun, updateLastrun, List.map_cons, List.filter_cons] at ih ⊢
      simp only [h, if_neg, beq_iff_eq, ite_false]
      simpa [h] using ih

theorem selectLastrun_append (info : List InfoRow) (now : String)
    (h : selectLastrun info = none) :
    selectLastrun (info ++ [⟨"lastrun", now⟩]) = some now := by
  have hf : info.filter (fun r => r.name == "lastrun") = [] := by
    cases hf : info.filter (fun r => r.name == "lastrun") with
    | nil => rfl
    | cons a l => rw [selectLastrun, hf] at h; simp at h
  rw [selectLastrun, List.filter_append, hf]
  rfl

/-- C5: on connecting, `_firstRunCheck` reads the `lastrun` setting; if
it is absent (and a channel is available), exactly one welcome message
is posted, to the first channel, and exactly one INSERT appends the
`("lastrun", now)` row; if it is present, no message is posted and
exactly one UPDATE overwrites the existing row's value with the current
time (the table keeps its rows, and `lastrun` afterwards reads `now`). -/
theorem firstRunCheck_spec (info : List InfoRow) (c : Channel) (cs : List Channel)
    (now : String) :
    (selectLastrun info = none →
      firstRunCheck info (c :: cs) now =
        some ⟨[c.name], [DbWrite.insert "lastrun" now], info ++ [⟨"lastrun", now⟩]⟩ ∧
      selectLastrun (info ++ [⟨"lastrun", now⟩]) = some now) ∧
    (∀ v, selectLastrun info = some v →
      firstRunCheck info (c :: cs) now =
        some ⟨[], [DbWrite.update "lastrun" now], updateLastrun info now⟩ ∧
      (updateLastrun info now).length = info.length ∧
      selectLastrun (updateLastrun info now) = some now) := by
  constructor
  · intro h
    refine ⟨?_, selectLastrun_append info now h⟩
    unfold firstRunCheck
    rw [h]
    rfl
  · intro v h
    refine ⟨?_, by simp [updateLastrun], ?_⟩
    · unfold firstRunCheck
      rw [h]
    · rw [selectLastrun_updateLastrun, h]
      rfl

/-- C9 counterexample: for a qualifying event whose channel id "C999" is
not in the channel list, `_getChannelById` yields `undefined` and the
post call throws a `TypeError` evaluating `channel.name` — the handler
crashes rather than logging and aborting, and the table is unchanged. -/
theorem channelMissing_cex :
    replyWithRandomJoke [⟨1, "J1", 0⟩] (fun _ => 0) [⟨"C1", "general"⟩] "C999" =
      (ReplyOutcome.crashNoChannel, [⟨1, "J1", 0⟩]) := by
  simp [replyWithRandomJoke, getChannelById]

/-- C9 (amended): whenever the destination channel id is absent from the
channel list, `_replyWithRandomJoke` crashes dereferencing the absent
channel (`channel.name` on `undefined`): nothing is posted, nothing is
logged, and no usage counter is updated. -/
theorem channelMissing_crashes (jokes : List Joke) (rnd : Nat → Nat)
    (channels : List Channel) (cid : String)
    (hc : getChannelById channels cid = none) :
    replyWithRandomJoke jokes rnd channels cid =
      (ReplyOutcome.crashNoChannel, jokes) := by
  unfold replyWithRandomJoke
  rw [hc]

/-- C9 witness: the crash at channel id "C777" against a singleton
channel list. -/
theorem channelMissing_crashes_witness :
    replyWithRandomJoke [⟨1, "J1", 0⟩] (fun _ => 2) [⟨"C1", "general"⟩] "C777" =
      (ReplyOutcome.crashNoChannel, [⟨1, "J1", 0⟩]) :=
  channelMissing_crashes [⟨1, "J1", 0⟩] (fun _ => 2) [⟨"C1", "general"⟩] "C777"
    (by decide)

end NorrisBot
